import Mathlib

/-!
Verification of the CRT overlay effect (`src/scripts/crt-effects.ts`).

The fragment shader's arithmetic is embedded over the real numbers: each GLSL
built-in (`clamp`, `fract`, `smoothstep`, `dot`, `length`, `floor`) is given
its specified real-valued meaning, and the shader body is transcribed
expression by expression.  The DOM/WebGL side (initialization, bloom layers,
resize and render loops, the nav-menu toggle) is embedded as pure state-passing
functions over explicit state types, with the environment's fallible calls
(context acquisition, shader creation/compilation, program linking) modelled by
boolean capability flags.
-/

namespace CRT

/-! ## GLSL built-ins over ℝ -/

/-- GLSL `clamp(x, lo, hi) = min(max(x, lo), hi)`. -/
noncomputable def glslClamp (x lo hi : ℝ) : ℝ := min (max x lo) hi

/-- GLSL `fract(x) = x - floor(x)`. -/
noncomputable def glslFract (x : ℝ) : ℝ := Int.fract x

/-- GLSL `smoothstep(e0, e1, x)`: Hermite ramp `t * t * (3 - 2 * t)` where
`t = clamp((x - e0) / (e1 - e0), 0, 1)`. -/
noncomputable def glslSmoothstep (e0 e1 x : ℝ) : ℝ :=
  glslClamp ((x - e0) / (e1 - e0)) 0 1 * glslClamp ((x - e0) / (e1 - e0)) 0 1 *
    (3 - 2 * glslClamp ((x - e0) / (e1 - e0)) 0 1)

/-- GLSL `dot` on `vec2`. -/
noncomputable def glslDot (p q : ℝ × ℝ) : ℝ := p.1 * q.1 + p.2 * q.2

/-- GLSL `length` on `vec2`. -/
noncomputable def glslLength (v : ℝ × ℝ) : ℝ := Real.sqrt (v.1 * v.1 + v.2 * v.2)

/-- GLSL `floor`, returned as a real number. -/
noncomputable def glslFloor (x : ℝ) : ℝ := (⌊x⌋ : ℤ)

/-! ## The fragment shader (FRAGMENT_SHADER, crt-effects.ts lines 19-117) -/

/-- Amber base colour `vec3(1.0, 0.69, 0.0)` (declared, currently unused). -/
noncomputable def amber : ℝ × ℝ × ℝ := (1, 0.69, 0)

/-- `hash(p) = fract(sin(dot(p, vec2(127.1, 311.7))) * 43758.5453123)`. -/
noncomputable def hash (p : ℝ × ℝ) : ℝ :=
  glslFract (Real.sin (glslDot p (127.1, 311.7)) * 43758.5453123)

/-- `float scanThickness = 1.0;`. -/
noncomputable def scanThickness : ℝ := 1

/-- The shader's pi literal `3.14159265`. -/
noncomputable def shaderPi : ℝ := 3.14159265

/-- `float scanlineY = uv.y * u_resolution.y / scanThickness;`. -/
noncomputable def scanlineY (uv res : ℝ × ℝ) : ℝ := uv.2 * res.2 / scanThickness

/-- `float scanline = sin(scanlineY * 3.14159265);`. -/
noncomputable def scanline (uv res : ℝ × ℝ) : ℝ := Real.sin (scanlineY uv res * shaderPi)

/-- `float scanDark = (1.0 - clamp(scanline, 0.0, 1.0)) * 0.25;`. -/
noncomputable def scanDark (uv res : ℝ × ℝ) : ℝ :=
  (1 - glslClamp (scanline uv res) 0 1) * 0.25

/-- `vec2 vigCoord = uv * 2.0 - 1.0;`. -/
noncomputable def vigCoord (uv : ℝ × ℝ) : ℝ × ℝ := (uv.1 * 2 - 1, uv.2 * 2 - 1)

/-- `float vigDist = length(vigCoord * vec2(0.7, 0.5));`. -/
noncomputable def vigDist (uv : ℝ × ℝ) : ℝ :=
  glslLength ((vigCoord uv).1 * 0.7, (vigCoord uv).2 * 0.5)

/-- `float vigDark = smoothstep(0.6, 1.4, vigDist) * 0.75;`. -/
noncomputable def vigDark (uv : ℝ × ℝ) : ℝ := glslSmoothstep 0.6 1.4 (vigDist uv) * 0.75

/-- `float flickerDark = (hash(vec2(floor(u_time * 30.0), 0.0)) - 0.5) * 0.08;`. -/
noncomputable def flickerDark (t : ℝ) : ℝ :=
  (hash (glslFloor (t * 30), 0) - 0.5) * 0.08

/-- `float totalDark = clamp(scanDark + vigDark + flickerDark, 0.0, 1.0);`. -/
noncomputable def totalDark (uv res : ℝ × ℝ) (t : ℝ) : ℝ :=
  glslClamp (scanDark uv res + vigDark uv + flickerDark t) 0 1

/-- `vec3 totalAdd = vec3(0.0);`. -/
noncomputable def totalAdd : ℝ × ℝ × ℝ := (0, 0, 0)

/-- `gl_FragColor = vec4(totalAdd, totalDark);` as a function of the varying
`v_uv`, the uniforms `u_time` and `u_resolution`. -/
noncomputable def fragmentShader (uv : ℝ × ℝ) (t : ℝ) (res : ℝ × ℝ) :
    (ℝ × ℝ × ℝ) × ℝ :=
  (totalAdd, totalDark uv res t)

/-! ## Bloom layers and initialization (initCRT, lines 144-238) -/

/-- One entry of the `bloomLayers` array literal. -/
structure BloomLayer where
  blur : ℚ
  brightness : ℚ
  opacity : ℚ
deriving DecidableEq

/-- The `bloomLayers` array literal of `initCRT`. -/
def bloomLayers : List BloomLayer :=
  [⟨0.5, 1.1, 0.45⟩, ⟨1.5, 1.15, 0.3⟩, ⟨3, 1.2, 0.2⟩, ⟨6, 1.25, 0.14⟩,
   ⟨12, 1.2, 0.1⟩, ⟨24, 1.15, 0.07⟩, ⟨48, 1.1, 0.04⟩, ⟨80, 1.05, 0.02⟩]

/-- A DOM element appended to `document.body` by `initCRT`: either one of the
bloom-layer `div`s or the shader `canvas`. -/
inductive OverlayElement
  | bloomDiv (blur brightness opacity : ℚ)
  | canvasElement
deriving DecidableEq

/-- The eight bloom `div`s appended by the `bloomLayers.forEach` loop. -/
def bloomElements : List OverlayElement :=
  bloomLayers.map fun l => OverlayElement.bloomDiv l.blur l.brightness l.opacity

/-- Capabilities of the host environment: which of the fallible WebGL calls in
`initCRT` succeed (`canvas.getContext`, `gl.createShader` and compilation for
each shader, `gl.createProgram` and linking). -/
structure GLEnv where
  contextOk : Bool
  createVertexShaderOk : Bool
  vertexCompileOk : Bool
  createFragmentShaderOk : Bool
  fragmentCompileOk : Bool
  createProgramOk : Bool
  linkOk : Bool

/-- `compileShader` (lines 119-129): null when `createShader` returns null or
when `COMPILE_STATUS` is false, otherwise the shader. -/
def compileShader (createOk compileOk : Bool) : Option Unit :=
  if createOk then (if compileOk then some () else none) else none

/-- `linkProgram` (lines 131-142): null when `createProgram` returns null or
when `LINK_STATUS` is false, otherwise the program. -/
def linkProgram (createOk linkOk : Bool) : Option Unit :=
  if createOk then (if linkOk then some () else none) else none

/-- Observable outcome of `initCRT`: which elements were appended to the body,
whether the `requestAnimationFrame` loop was started, and whether an exception
escaped. -/
structure InitResult where
  elements : List OverlayElement
  loopStarted : Bool
  threw : Bool
deriving DecidableEq

/-- `initCRT` (lines 144-238): appends the eight bloom layers, then the canvas,
then bails out with a plain `return` (never a throw) if the context, either
shader, or the program cannot be obtained; only on full success does it reach
`requestAnimationFrame(render)`. -/
def initCRT (env : GLEnv) : InitResult :=
  let elems := bloomElements ++ [OverlayElement.canvasElement]
  if env.contextOk then
    match compileShader env.createVertexShaderOk env.vertexCompileOk,
          compileShader env.createFragmentShaderOk env.fragmentCompileOk with
    | some _, some _ =>
      match linkProgram env.createProgramOk env.linkOk with
      | some _ => ⟨elems, true, false⟩
      | none => ⟨elems, false, false⟩
    | _, _ => ⟨elems, false, false⟩
  else ⟨elems, false, false⟩

/-- An environment whose drawing context cannot be acquired (everything else
would succeed). -/
def envNoContext : GLEnv := ⟨false, true, true, true, true, true, true⟩

/-! ## Resize handling and the frame loop (lines 220-237) -/

/-- Mutable state touched by the `resize` handler and the `render` loop:
window dimensions, canvas backing dimensions, GL viewport, and the log of
resolutions used by executed draw calls. -/
structure SurfaceState where
  windowW : ℕ
  windowH : ℕ
  canvasW : ℕ
  canvasH : ℕ
  viewportW : ℕ
  viewportH : ℕ
  draws : List (ℕ × ℕ)
deriving DecidableEq

/-- The `resize` arrow function (lines 220-224): synchronously copies the
window dimensions into the canvas backing store and the GL viewport. -/
def resizeHandler (s : SurfaceState) : SurfaceState :=
  { s with canvasW := s.windowW, canvasH := s.windowH,
           viewportW := s.windowW, viewportH := s.windowH }

/-- Events on the single-threaded browser event queue that touch
`SurfaceState`: a window resize (which runs the handler synchronously, there
is no debouncing) or an animation-frame callback. -/
inductive UIEvent
  | resized (w h : ℕ)
  | frame
deriving DecidableEq

/-- One step of the event queue.  A resize event updates the window dimensions
and immediately runs `resizeHandler`; a frame callback draws at the current
canvas resolution (`gl.uniform2f(resLoc, canvas.width, canvas.height)`). -/
def uiStep (s : SurfaceState) : UIEvent → SurfaceState
  | UIEvent.resized w h => resizeHandler { s with windowW := w, windowH := h }
  | UIEvent.frame => { s with draws := s.draws ++ [(s.canvasW, s.canvasH)] }

/-- Run a sequence of queued events in order. -/
def uiRun (s : SurfaceState) : List UIEvent → SurfaceState
  | [] => s
  | e :: es => uiRun (uiStep s e) es

/-- `const elapsed = (performance.now() - startTime) / 1000.0;` (line 230). -/
def elapsedSeconds (startTime now : ℚ) : ℚ := (now - startTime) / 1000

/-- The `render` loop (lines 229-237), observed through the clock readings
`performance.now()` returns at successive frames: each iteration recomputes
the elapsed time from the single `startTime` captured at line 228 and passes
it to the draw call. -/
def renderLoop (startTime : ℚ) : List ℚ → List ℚ
  | [] => []
  | n :: ns => elapsedSeconds startTime n :: renderLoop startTime ns

/-! ## The nav menu (initMenu, lines 240-260) -/

/-- The toggle button: its `id` and its `innerText` label. -/
structure MenuButton where
  id : String
  label : String
deriving DecidableEq

/-- State of the document as seen by `initMenu`: whether a `nav` element and a
`nav ul` list exist, whether the list currently has the `open` class, and the
inserted toggle button (if any). -/
structure MenuState where
  navPresent : Bool
  listPresent : Bool
  listOpen : Bool
  button : Option MenuButton
deriving DecidableEq

/-- `'> ABRIR COMANDOS'`. -/
def abrirLabel : String := "> ABRIR COMANDOS"

/-- `'> CERRAR COMANDOS'`. -/
def cerrarLabel : String := "> CERRAR COMANDOS"

/-- `initMenu` (lines 240-260): only when both the `nav` and its `ul` exist,
create the button with id `menu-toggle` and initial label `> ABRIR COMANDOS`
and insert it before the list; otherwise do nothing. -/
def initMenu (s : MenuState) : MenuState :=
  if s.navPresent && s.listPresent then
    { s with button := some ⟨"menu-toggle", abrirLabel⟩ }
  else s

/-- The button's click handler (lines 251-258): toggle the list's `open` class,
then set the label according to whether the class is now present. -/
def clickMenu (s : MenuState) : MenuState :=
  match s.button with
  | none => s
  | some b =>
    let nowOpen := !s.listOpen
    { s with listOpen := nowOpen,
             button := some { b with label := if nowOpen then cerrarLabel else abrirLabel } }

/-! ## Shared helper lemmas -/

lemma glslClamp_zero_one_nonneg (x : ℝ) : 0 ≤ glslClamp x 0 1 :=
  le_min (le_max_right x 0) zero_le_one

lemma glslClamp_zero_one_le_one (x : ℝ) : glslClamp x 0 1 ≤ 1 :=
  min_le_right _ _

lemma hash_mem (p : ℝ × ℝ) : 0 ≤ hash p ∧ hash p ≤ 1 :=
  ⟨Int.fract_nonneg _, le_of_lt (Int.fract_lt_one _)⟩

lemma vigDist_one_one : vigDist (1, 1) = Real.sqrt 0.74 := by
  unfold vigDist vigCoord glslLength
  norm_num

lemma sqrt_074_lt : Real.sqrt 0.74 < 1.4 :=
  (Real.sqrt_lt' (by norm_num)).2 (by norm_num)

/-- Below the saturation threshold the smoothstep ramp stays strictly below 1,
so the vignette darkening stays strictly below its maximum 0.75. -/
lemma vigDark_lt_of_vigDist_lt {q : ℝ × ℝ} (h : vigDist q < 1.4) : vigDark q < 0.75 := by
  unfold vigDark glslSmoothstep
  set t := glslClamp ((vigDist q - 0.6) / (1.4 - 0.6)) 0 1 with hT
  have ht0 : 0 ≤ t := glslClamp_zero_one_nonneg _
  have ht1 : t < 1 := by
    rw [hT]
    unfold glslClamp
    refine lt_of_le_of_lt (min_le_left _ _) (max_lt ?_ zero_lt_one)
    rw [div_lt_one (by norm_num)]
    linarith
  nlinarith [mul_pos (mul_pos (sub_pos.2 ht1) (sub_pos.2 ht1))
    (show (0:ℝ) < 1 + 2 * t by linarith)]

/-! ## Claim theorems -/

/-- Claim C1: for every pixel coordinate in the unit square, every elapsed time
and every resolution, the fragment shader outputs the pair consisting of the
zero additive colour and `clamp(scanDark + vigDark + flickerDark, 0, 1)`, and
that darkness value always lies in [0, 1]. -/
theorem C1_fragment_output (uv : ℝ × ℝ) (t : ℝ) (res : ℝ × ℝ)
    (_hx : 0 ≤ uv.1 ∧ uv.1 ≤ 1) (_hy : 0 ≤ uv.2 ∧ uv.2 ≤ 1) :
    fragmentShader uv t res =
      ((0, 0, 0), glslClamp (scanDark uv res + vigDark uv + flickerDark t) 0 1) ∧
    0 ≤ (fragmentShader uv t res).2 ∧ (fragmentShader uv t res).2 ≤ 1 := by
  refine ⟨rfl, ?_, ?_⟩
  · exact glslClamp_zero_one_nonneg _
  · exact glslClamp_zero_one_le_one _

/-- Witness for C1 at the centre pixel, time 0, resolution 1000 × 1000. -/
theorem C1_fragment_output_witness :
    fragmentShader (1/2, 1/2) 0 (1000, 1000) =
      ((0, 0, 0),
        glslClamp (scanDark (1/2, 1/2) (1000, 1000) + vigDark (1/2, 1/2) + flickerDark 0) 0 1) ∧
    0 ≤ (fragmentShader (1/2, 1/2) 0 (1000, 1000)).2 ∧
    (fragmentShader (1/2, 1/2) 0 (1000, 1000)).2 ≤ 1 :=
  C1_fragment_output (1/2, 1/2) 0 (1000, 1000) (by norm_num) (by norm_num)

/-- Claim C2 counterexample: the far corner (1, 1) of the viewport has
scaled-ellipse distance √0.74 ≈ 0.86 < 1.4, so its vignette darkening is
strictly below 0.75; the claim that far corners receive the full 0.75 is
false. -/
theorem C2_counterexample : ¬ (vigDark (1, 1) = 0.75) := by
  have h : vigDark (1, 1) < 0.75 := by
    apply vigDark_lt_of_vigDist_lt
    rw [vigDist_one_one]
    exact sqrt_074_lt
  exact ne_of_lt h

/-- Claim C2 (amended): the vignette darkening is smoothstep(0.6, 1.4, d)·0.75
with d the Euclidean length of the centred coordinate 2·uv − 1 scaled by
(0.7, 0.5); the exact centre receives 0, every coordinate with d ≥ 1.4
receives the maximum 0.75, and the four far corners of the viewport — whose
distance is √0.74 < 1.4 — receive strictly less than 0.75. -/
theorem C2_vignette (uv : ℝ × ℝ) (hfar : 1.4 ≤ vigDist uv) :
    (∀ q : ℝ × ℝ, vigDark q =
      glslSmoothstep 0.6 1.4
        (Real.sqrt ((2 * q.1 - 1) * 0.7 * ((2 * q.1 - 1) * 0.7) +
          (2 * q.2 - 1) * 0.5 * ((2 * q.2 - 1) * 0.5))) * 0.75) ∧
    vigDark (1/2, 1/2) = 0 ∧
    vigDark uv = 0.75 ∧
    (vigDist (0, 0) = Real.sqrt 0.74 ∧ vigDist (1, 0) = Real.sqrt 0.74 ∧
     vigDist (0, 1) = Real.sqrt 0.74 ∧ vigDist (1, 1) = Real.sqrt 0.74) ∧
    (vigDark (0, 0) < 0.75 ∧ vigDark (1, 0) < 0.75 ∧
     vigDark (0, 1) < 0.75 ∧ vigDark (1, 1) < 0.75) := by
  have hformula : ∀ q : ℝ × ℝ, vigDark q =
      glslSmoothstep 0.6 1.4
        (Real.sqrt ((2 * q.1 - 1) * 0.7 * ((2 * q.1 - 1) * 0.7) +
          (2 * q.2 - 1) * 0.5 * ((2 * q.2 - 1) * 0.5))) * 0.75 := by
    intro q
    unfold vigDark vigDist vigCoord glslLength
    have harg : (q.1 * 2 - 1, q.2 * 2 - 1).1 * 0.7 * ((q.1 * 2 - 1, q.2 * 2 - 1).1 * 0.7) +
        (q.1 * 2 - 1, q.2 * 2 - 1).2 * 0.5 * ((q.1 * 2 - 1, q.2 * 2 - 1).2 * 0.5) =
        (2 * q.1 - 1) * 0.7 * ((2 * q.1 - 1) * 0.7) +
          (2 * q.2 - 1) * 0.5 * ((2 * q.2 - 1) * 0.5) := by
      simp only []
      ring
    rw [harg]
  have hcenter : vigDark (1/2, 1/2) = 0 := by
    have hd : vigDist (1/2, 1/2) = 0 := by
      unfold vigDist vigCoord glslLength
      norm_num [Real.sqrt_zero]
    unfold vigDark
    rw [hd]
    unfold glslSmoothstep glslClamp
    rw [show ((0:ℝ) - 0.6) / (1.4 - 0.6) = -0.75 by norm_num]
    rw [max_eq_right (by norm_num : (-0.75:ℝ) ≤ 0)]
    rw [min_eq_left (by norm_num : (0:ℝ) ≤ 1)]
    ring
  have hsat : vigDark uv = 0.75 := by
    have h1 : 1 ≤ (vigDist uv - 0.6) / (1.4 - 0.6) :=
      (one_le_div (by norm_num)).2 (by linarith)
    have ht : glslClamp ((vigDist uv - 0.6) / (1.4 - 0.6)) 0 1 = 1 := by
      unfold glslClamp
      rw [max_eq_left (le_trans zero_le_one h1), min_eq_right h1]
    unfold vigDark glslSmoothstep
    rw [ht]
    ring
  have h00 : vigDist (0, 0) = Real.sqrt 0.74 := by
    unfold vigDist vigCoord glslLength
    norm_num
  have h10 : vigDist (1, 0) = Real.sqrt 0.74 := by
    unfold vigDist vigCoord glslLength
    norm_num
  have h01 : vigDist (0, 1) = Real.sqrt 0.74 := by
    unfold vigDist vigCoord glslLength
    norm_num
  have hlt : ∀ q : ℝ × ℝ, vigDist q = Real.sqrt 0.74 → vigDark q < 0.75 := by
    intro q hq
    apply vigDark_lt_of_vigDist_lt
    rw [hq]
    exact sqrt_074_lt
  exact ⟨hformula, hcenter, hsat, ⟨h00, h10, h01, vigDist_one_one⟩,
    ⟨hlt _ h00, hlt _ h10, hlt _ h01, hlt _ vigDist_one_one⟩⟩

/-- Witness for C2 (amended): the point (2, 1/2) lies at scaled-ellipse
distance 2.1 ≥ 1.4 and receives the full 0.75 darkening. -/
theorem C2_vignette_witness : vigDark (2, 1/2) = 0.75 := by
  have hfar : 1.4 ≤ vigDist (2, 1/2) := by
    unfold vigDist vigCoord glslLength
    rw [show (1.4 : ℝ) = Real.sqrt 1.96 by
      rw [show (1.96 : ℝ) = 1.4 ^ 2 by norm_num]
      exact (Real.sqrt_sq (by norm_num)).symm]
    apply Real.sqrt_le_sqrt
    norm_num
  exact (C2_vignette (2, 1/2) hfar).2.2.1

/-- Claim C3: the scanline darkening equals
`(1 - clamp(sin(row * pi), 0, 1)) * 0.25` where `row = y * resolutionHeight`
and `pi` is the shader's pi literal 3.14159265; for rows up to 10^6, at the
exact centre of a scanline band (the lit phosphor row, `row = 2k + 0.5`) the
darkening is within 0.001 of 0, and at the exact boundary between bands
(integer `row = k`) it is within 0.001 of 0.25 — hard dark bands, not a
smooth sinusoidal gradient. -/
theorem C3_scanlines (uv res : ℝ × ℝ) (k : ℕ) (hk : k ≤ 1000000) :
    scanDark uv res = (1 - glslClamp (Real.sin (uv.2 * res.2 * shaderPi)) 0 1) * 0.25 ∧
    (uv.2 * res.2 = 2 * k + 0.5 → |scanDark uv res| ≤ 0.001) ∧
    (uv.2 * res.2 = k → |scanDark uv res - 0.25| ≤ 0.001) := by
  have hrow : scanlineY uv res = uv.2 * res.2 := by
    unfold scanlineY scanThickness
    exact div_one _
  have formula : scanDark uv res =
      (1 - glslClamp (Real.sin (uv.2 * res.2 * shaderPi)) 0 1) * 0.25 := by
    unfold scanDark scanline
    rw [hrow]
  have hpi1 : (3.14159265358979323846 : ℝ) < Real.pi := Real.pi_gt_d20
  have hpi2 : Real.pi < 3.14159265358979323847 := Real.pi_lt_d20
  have hδ0 : 0 < Real.pi - shaderPi := by unfold shaderPi; linarith
  have hδ1 : Real.pi - shaderPi < 3.6e-9 := by unfold shaderPi; linarith
  have hk' : (k : ℝ) ≤ 1000000 := by exact_mod_cast hk
  refine ⟨formula, ?_, ?_⟩
  · intro hrc
    have hx : uv.2 * res.2 * shaderPi =
        (Real.pi / 2 - (2 * (k:ℝ) + 0.5) * (Real.pi - shaderPi)) +
          ((k : ℤ) : ℝ) * (2 * Real.pi) := by
      rw [hrc]
      push_cast
      ring
    have hsin : Real.sin (uv.2 * res.2 * shaderPi) =
        Real.cos ((2 * (k:ℝ) + 0.5) * (Real.pi - shaderPi)) := by
      rw [hx, Real.sin_add_int_mul_two_pi, Real.sin_pi_div_two_sub]
    have hx0 : 0 ≤ (2 * (k:ℝ) + 0.5) * (Real.pi - shaderPi) :=
      mul_nonneg (by positivity) (le_of_lt hδ0)
    have hxle : (2 * (k:ℝ) + 0.5) * (Real.pi - shaderPi) ≤ 0.0073 := by
      calc (2 * (k:ℝ) + 0.5) * (Real.pi - shaderPi)
          ≤ (2 * 1000000 + 0.5) * 3.6e-9 :=
            mul_le_mul (by linarith) (le_of_lt hδ1) (le_of_lt hδ0) (by norm_num)
        _ ≤ 0.0073 := by norm_num
    have hcos1 : Real.cos ((2 * (k:ℝ) + 0.5) * (Real.pi - shaderPi)) ≤ 1 :=
      Real.cos_le_one _
    have hcos0 : 1 - 0.00003 ≤ Real.cos ((2 * (k:ℝ) + 0.5) * (Real.pi - shaderPi)) := by
      have h := Real.one_sub_sq_div_two_le_cos
        (x := (2 * (k:ℝ) + 0.5) * (Real.pi - shaderPi))
      nlinarith
    have hclamp : glslClamp (Real.cos ((2 * (k:ℝ) + 0.5) * (Real.pi - shaderPi))) 0 1 =
        Real.cos ((2 * (k:ℝ) + 0.5) * (Real.pi - shaderPi)) := by
      unfold glslClamp
      rw [max_eq_left (by linarith), min_eq_left hcos1]
    rw [formula, hsin, hclamp, abs_le]
    constructor <;> linarith
  · intro hrk
    have hx : uv.2 * res.2 * shaderPi =
        (k:ℝ) * Real.pi - (k:ℝ) * (Real.pi - shaderPi) := by
      rw [hrk]
      ring
    have hsin : Real.sin (uv.2 * res.2 * shaderPi) =
        -((-1) ^ k * Real.sin ((k:ℝ) * (Real.pi - shaderPi))) := by
      rw [hx, Real.sin_nat_mul_pi_sub]
    have habs : |Real.sin (uv.2 * res.2 * shaderPi)| =
        |Real.sin ((k:ℝ) * (Real.pi - shaderPi))| := by
      rw [hsin, abs_neg, abs_mul, abs_pow, abs_neg, abs_one, one_pow, one_mul]
    have hsmall : |Real.sin ((k:ℝ) * (Real.pi - shaderPi))| ≤ 0.0036 := by
      calc |Real.sin ((k:ℝ) * (Real.pi - shaderPi))|
          ≤ |(k:ℝ) * (Real.pi - shaderPi)| := Real.abs_sin_le_abs
        _ = (k:ℝ) * (Real.pi - shaderPi) :=
            abs_of_nonneg (mul_nonneg (Nat.cast_nonneg k) (le_of_lt hδ0))
        _ ≤ 1000000 * 3.6e-9 :=
            mul_le_mul hk' (le_of_lt hδ1) (le_of_lt hδ0) (by norm_num)
        _ ≤ 0.0036 := by norm_num
    have hs : |Real.sin (uv.2 * res.2 * shaderPi)| ≤ 0.0036 := by
      rw [habs]
      exact hsmall
    have hs' := abs_le.1 hs
    have hmaxle : max (Real.sin (uv.2 * res.2 * shaderPi)) 0 ≤ 0.0036 :=
      max_le hs'.2 (by norm_num)
    have hmax0 : 0 ≤ max (Real.sin (uv.2 * res.2 * shaderPi)) 0 := le_max_right _ _
    have hclamp : glslClamp (Real.sin (uv.2 * res.2 * shaderPi)) 0 1 =
        max (Real.sin (uv.2 * res.2 * shaderPi)) 0 := by
      unfold glslClamp
      exact min_eq_left (le_trans hmaxle (by norm_num))
    rw [formula, hclamp, abs_le]
    constructor <;> linarith

/-- Witness for C3 at resolution height 1: row 0.5 is the centre of the first
lit scanline band, row 1 the first boundary between bands. -/
theorem C3_scanlines_witness :
    |scanDark (0, 0.5) (1, 1)| ≤ 0.001 ∧ |scanDark (0, 1) (1, 1) - 0.25| ≤ 0.001 :=
  ⟨(C3_scanlines (0, 0.5) (1, 1) 0 (by norm_num)).2.1 (by norm_num),
   (C3_scanlines (0, 1) (1, 1) 1 (by norm_num)).2.2 (by norm_num)⟩

/-- Claim C4: the flicker darkening is `(hash(floor(t * 30), 0) - 0.5) * 0.08`
with `hash` valued in [0, 1]; it depends only on the 1/30-second tick (equal
tick indices give equal flicker, independent of the pixel coordinate), and its
magnitude always lies within [-0.04, 0.04]. -/
theorem C4_flicker (t t1 t2 : ℝ) (h : ⌊30 * t1⌋ = ⌊30 * t2⌋) :
    flickerDark t = (hash (glslFloor (t * 30), 0) - 0.5) * 0.08 ∧
    (∀ p : ℝ × ℝ, 0 ≤ hash p ∧ hash p ≤ 1) ∧
    flickerDark t1 = flickerDark t2 ∧
    -0.04 ≤ flickerDark t ∧ flickerDark t ≤ 0.04 := by
  have key : ∀ u : ℝ, flickerDark u = (hash (glslFloor (u * 30), 0) - 0.5) * 0.08 :=
    fun u => rfl
  refine ⟨key t, hash_mem, ?_, ?_, ?_⟩
  · rw [key t1, key t2]
    have : glslFloor (t1 * 30) = glslFloor (t2 * 30) := by
      unfold glslFloor
      rw [mul_comm t1 30, mul_comm t2 30, h]
    rw [this]
  · have := hash_mem (glslFloor (t * 30), 0)
    rw [key t]; nlinarith [this.1, this.2]
  · have := hash_mem (glslFloor (t * 30), 0)
    rw [key t]; nlinarith [this.1, this.2]

/-- Witness for C4: times 0 and 1/60 share tick 0, so their flicker agrees,
and the flicker at time 0 lies within the stated band. -/
theorem C4_flicker_witness :
    flickerDark 0 = flickerDark (1/60) ∧ -0.04 ≤ flickerDark 0 ∧ flickerDark 0 ≤ 0.04 :=
  ⟨(C4_flicker 0 0 (1/60) (by norm_num)).2.2.1,
   (C4_flicker 0 0 (1/60) (by norm_num)).2.2.2⟩

/-- Claim C5 counterexample: with every capability available except the WebGL
context, initialization still appends the canvas element, so the claimed
"no overlay elements beyond the bloom layer stack" conjunct fails (the other
two conjuncts hold, but the conjunction does not). -/
theorem C5_counterexample :
    ¬ ((initCRT envNoContext).threw = false ∧
       (initCRT envNoContext).loopStarted = false ∧
       (initCRT envNoContext).elements = bloomElements) := by
  intro hcl
  have h9 : (initCRT envNoContext).elements.length = 9 := by
    show (bloomElements ++ [OverlayElement.canvasElement]).length = 9
    simp [bloomElements, bloomLayers]
  have h8 : (initCRT envNoContext).elements.length = 8 := by
    rw [hcl.2.2]
    simp [bloomElements, bloomLayers]
  omega

/-- Claim C5 (amended): if the context cannot be acquired, or either shader
cannot be created or compiled, or the program cannot be created or linked,
then initialization aborts silently — no exception, no animation loop — and
the elements added are exactly the bloom layer stack plus the one inert
transparent canvas (which is appended before context acquisition). -/
theorem C5_silent_abort (env : GLEnv)
    (h : env.contextOk = false ∨
         compileShader env.createVertexShaderOk env.vertexCompileOk = none ∨
         compileShader env.createFragmentShaderOk env.fragmentCompileOk = none ∨
         linkProgram env.createProgramOk env.linkOk = none) :
    (initCRT env).threw = false ∧ (initCRT env).loopStarted = false ∧
    (initCRT env).elements = bloomElements ++ [OverlayElement.canvasElement] := by
  rcases env with ⟨c, cv, vc, cf, fc, cp, lk⟩
  cases c <;> cases cv <;> cases vc <;> cases cf <;> cases fc <;> cases cp <;> cases lk <;>
    simp_all [initCRT, compileShader, linkProgram]

/-- Witness for C5 (amended) at the concrete no-context environment. -/
theorem C5_silent_abort_witness :
    (initCRT envNoContext).threw = false ∧ (initCRT envNoContext).loopStarted = false ∧
    (initCRT envNoContext).elements = bloomElements ++ [OverlayElement.canvasElement] :=
  C5_silent_abort envNoContext (Or.inl rfl)

/-- Claim C6: exactly 8 bloom layer descriptors, in order, with the stated
blur radii, brightness factors and opacities; blur strictly increases and
opacity strictly decreases along the sequence (sharpest/most-opaque first,
most-diffuse/least-opaque last). -/
theorem C6_bloom_layers :
    bloomLayers.length = 8 ∧
    bloomLayers.map BloomLayer.blur = [0.5, 1.5, 3, 6, 12, 24, 48, 80] ∧
    bloomLayers.map BloomLayer.brightness = [1.1, 1.15, 1.2, 1.25, 1.2, 1.15, 1.1, 1.05] ∧
    bloomLayers.map BloomLayer.opacity = [0.45, 0.3, 0.2, 0.14, 0.1, 0.07, 0.04, 0.02] ∧
    bloomLayers.Chain' (fun a b => a.blur < b.blur) ∧
    bloomLayers.Chain' (fun a b => b.opacity < a.opacity) := by
  refine ⟨rfl, rfl, rfl, rfl, ?_, ?_⟩ <;>
    · simp only [bloomLayers, List.chain'_cons, List.chain'_singleton]
      norm_num

/-- Claim C7: a resize event unconditionally and synchronously sets the canvas
backing dimensions and the GL viewport to the window's current dimensions, and
every frame drawn after it (with no further resize) — in particular the very
next one — already uses the new resolution. -/
theorem C7_resize (s : SurfaceState) (w h k : ℕ) :
    (uiStep s (UIEvent.resized w h)).canvasW = w ∧
    (uiStep s (UIEvent.resized w h)).canvasH = h ∧
    (uiStep s (UIEvent.resized w h)).viewportW = w ∧
    (uiStep s (UIEvent.resized w h)).viewportH = h ∧
    (uiRun s (UIEvent.resized w h :: List.replicate k UIEvent.frame)).draws =
      s.draws ++ List.replicate k (w, h) := by
  refine ⟨rfl, rfl, rfl, rfl, ?_⟩
  show (uiRun (uiStep s (UIEvent.resized w h)) (List.replicate k UIEvent.frame)).draws =
    s.draws ++ List.replicate k (w, h)
  have key : ∀ (n : ℕ) (st : SurfaceState),
      (uiRun st (List.replicate n UIEvent.frame)).draws =
        st.draws ++ List.replicate n (st.canvasW, st.canvasH) := by
    intro n
    induction n with
    | zero => intro st; simp [uiRun]
    | succ m ih =>
      intro st
      rw [List.replicate_succ]
      show (uiRun (uiStep st UIEvent.frame) (List.replicate m UIEvent.frame)).draws = _
      rw [ih (uiStep st UIEvent.frame)]
      simp [uiStep, List.replicate_succ]
  rw [key k (uiStep s (UIEvent.resized w h))]
  rfl

/-- Claim C8: every frame's elapsed time equals (clock reading − the single
start timestamp) / 1000, for an arbitrary sequence of clock readings; in
particular the elapsed value of the latest frame is a function of that frame's
clock reading and the start timestamp only, never an increment of a previous
value by a fixed per-frame delta, so no drift accumulates under variable frame
rates. -/
theorem C8_elapsed (startTime : ℚ) (nows pre : List ℚ) (n : ℚ) :
    renderLoop startTime nows = nows.map (fun x => (x - startTime) / 1000) ∧
    renderLoop startTime (pre ++ [n]) =
      renderLoop startTime pre ++ [(n - startTime) / 1000] := by
  have key : ∀ l : List ℚ,
      renderLoop startTime l = l.map (fun x => (x - startTime) / 1000) := by
    intro l
    induction l with
    | nil => rfl
    | cons a as ih => simp [renderLoop, elapsedSeconds, ih]
  refine ⟨key nows, ?_⟩
  rw [key (pre ++ [n]), key pre, List.map_append]
  rfl

/-- Claim C9: with a zero resolution height the scanline row-index computation
divides only by the constant scanline thickness 1 (which is nonzero — there is
no division by the resolution), the resolution enters as a multiplier, the row
index degenerates to 0, and the scanline darkening is 0.25 at every
coordinate. -/
theorem C9_zero_resolution (uv : ℝ × ℝ) (w : ℝ) :
    scanThickness = 1 ∧ scanThickness ≠ 0 ∧
    scanlineY uv (w, 0) = uv.2 * 0 / scanThickness ∧
    scanlineY uv (w, 0) = 0 ∧
    scanDark uv (w, 0) = 0.25 := by
  have h1 : scanThickness = 1 := rfl
  have h2 : scanlineY uv (w, 0) = 0 := by
    unfold scanlineY scanThickness
    norm_num
  refine ⟨h1, by rw [h1]; norm_num, rfl, h2, ?_⟩
  unfold scanDark scanline
  rw [h2]
  rw [zero_mul, Real.sin_zero]
  unfold glslClamp
  rw [max_self, min_eq_left zero_le_one]
  norm_num

/-- Claim C10: when the document lacks a nav or the nav lacks a list, menu
initialization does nothing at all (and throws nothing); when both exist,
exactly one button with id `menu-toggle` and initial label `> ABRIR COMANDOS`
is inserted, and each click toggles the list's `open` class and sets the label
to `> CERRAR COMANDOS` exactly when the class is now present and to
`> ABRIR COMANDOS` otherwise. -/
theorem C10_menu (s : MenuState) :
    ((s.navPresent && s.listPresent) = false → initMenu s = s) ∧
    ((s.navPresent && s.listPresent) = true →
      (initMenu s).button = some ⟨"menu-toggle", abrirLabel⟩) ∧
    (∀ b, s.button = some b →
      (clickMenu s).listOpen = !s.listOpen ∧
      (clickMenu s).button =
        some ⟨b.id, if !s.listOpen then cerrarLabel else abrirLabel⟩) := by
  refine ⟨?_, ?_, ?_⟩
  · intro hfail
    simp [initMenu, hfail]
  · intro hok
    simp [initMenu, hok]
  · intro b hb
    simp [clickMenu, hb]

/-- Witness for C10: a document with both nav and list gets the button, and a
click on the freshly initialized menu opens the list and relabels the
button. -/
theorem C10_menu_witness :
    (initMenu ⟨true, true, false, none⟩).button = some ⟨"menu-toggle", abrirLabel⟩ ∧
    ((clickMenu ⟨true, true, false, some ⟨"menu-toggle", abrirLabel⟩⟩).listOpen = !false ∧
     (clickMenu ⟨true, true, false, some ⟨"menu-toggle", abrirLabel⟩⟩).button =
       some ⟨"menu-toggle", if !false then cerrarLabel else abrirLabel⟩) :=
  ⟨(C10_menu ⟨true, true, false, none⟩).2.1 rfl,
   (C10_menu ⟨true, true, false, some ⟨"menu-toggle", abrirLabel⟩⟩).2.2
     ⟨"menu-toggle", abrirLabel⟩ rfl⟩

end CRT
